import Mathlib

/-!
Verification of the ballistics-rs equation library.

Shallow embedding of the `ballistics-rs` crate (files `src/constants.rs` and
`src/equations.rs`).  Every quantity type in the crate is a transparent newtype
around one `f64`; the formulas are single closed-form arithmetic expressions.
We model the underlying `f64` value by an exact rational number (`ℚ`), except
where a formula takes a square root, in which case the result lives in `ℝ`.
Rust's `f64::powi` with an `i32` exponent is modelled by `zpow` with an `ℤ`
exponent, so that the integer-literal arithmetic inside exponent positions
(`1 / 3` in `velocity_correction`) truncates exactly as `i32` division does.

For the one claim about IEEE-754 special values (division by a zero sight
radius) we use a dedicated extended value type `FP` whose finite part is exact
and whose infinities and NaN follow the IEEE-754 special-value rules.
-/

namespace Ballistics

/-- Rust `Temperature(pub f64)` — degrees Fahrenheit, modelled exactly. -/
abbrev Temperature := ℚ

/-- Rust `Pressure(pub f64)` — inches of mercury, modelled exactly. -/
abbrev Pressure := ℚ

/-- Rust `Velocity(pub f64)` — feet per second, modelled exactly. -/
abbrev Velocity := ℚ

/-- Rust `BulletMass(pub f64)` — grains, modelled exactly. -/
abbrev BulletMass := ℚ

/-- Rust `BulletDiameter(pub f64)` — inches, modelled exactly. -/
abbrev BulletDiameter := ℚ

/-- Rust `BulletLength(pub f64)` — calibers, modelled exactly. -/
abbrev BulletLength := ℚ

/-- Rust `RiflingTwist(pub f64)` — calibers per turn, modelled exactly. -/
abbrev RiflingTwist := ℚ

/-- Rust `DragCoefficient(pub f64)` — dimensionless, modelled exactly. -/
abbrev DragCoefficient := ℚ

/-- Rust `FormFactor(pub f64)` — dimensionless, modelled exactly. -/
abbrev FormFactor := ℚ

/-- Rust `GyroscopicStability(pub f64)` — dimensionless, modelled exactly. -/
abbrev GyroscopicStability := ℚ

/-- Rust `KineticEnergy(pub f64)` — foot-pounds, modelled exactly. -/
abbrev KineticEnergy := ℚ

/-- Rust `BallisticCoefficient(pub f64)` — dimensionless, modelled exactly. -/
abbrev BallisticCoefficient := ℚ

/-- Rust `SpeedOfSound(pub f64)` — feet per second.  The computing formula takes a
square root, so this quantity is modelled in `ℝ`. -/
abbrev SpeedOfSound := ℝ

/-- Rust `SPEED_OF_SOUND_SEA_LEVEL: SpeedOfSound = SpeedOfSound(1116.28)`
(`src/constants.rs`). -/
def SPEED_OF_SOUND_SEA_LEVEL : SpeedOfSound := 1116.28

/-- Rust `STANDARD_PRESSURE: Pressure = Pressure(29.92)` (`src/constants.rs`). -/
def STANDARD_PRESSURE : Pressure := 29.92

/-- Rust `STANDARD_TEMPERATURE: Temperature = Temperature(59.0)`
(`src/constants.rs`). -/
def STANDARD_TEMPERATURE : Temperature := 59.0

/-- Rust `SpeedOfSound::calculate` (`src/equations.rs`):
`SpeedOfSound(49.0223 * (temperature.0 + 459.67).sqrt())`. -/
noncomputable def SpeedOfSound.calculate (temperature : Temperature) :
    SpeedOfSound :=
  49.0223 * Real.sqrt ((temperature : ℝ) + 459.67)

/-- Rust `KineticEnergy::calculate` (`src/equations.rs`):
`KineticEnergy((bullet_weight.0 * velocity.0.powi(2)) / 450800.0)`. -/
def KineticEnergy.calculate (bullet_weight : BulletMass)
    (velocity : Velocity) : KineticEnergy :=
  (bullet_weight * velocity ^ (2 : ℤ)) / 450800.0

/-- Rust `FormFactor::calculate` (`src/equations.rs`):
`FormFactor(drag_coefficient.0 / standard_bullet_drag_coefficient.0)`. -/
def FormFactor.calculate (drag_coefficient : DragCoefficient)
    (standard_bullet_drag_coefficient : DragCoefficient) : FormFactor :=
  drag_coefficient / standard_bullet_drag_coefficient

/-- Rust `GyroscopicStability::calculate` (`src/equations.rs`), Miller's formula:
`(30.0 * bullet_mass.0) / (rifling_twist.0.powi(2) * bullet_diameter.0.powi(3)
* bullet_length.0 * (1.0 + bullet_length.0.powi(2)))`. -/
def GyroscopicStability.calculate (bullet_mass : BulletMass)
    (rifling_twist : RiflingTwist) (bullet_diameter : BulletDiameter)
    (bullet_length : BulletLength) : GyroscopicStability :=
  (30.0 * bullet_mass) /
    (rifling_twist ^ (2 : ℤ) * bullet_diameter ^ (3 : ℤ) * bullet_length *
      (1.0 + bullet_length ^ (2 : ℤ)))

/-- Rust `GyroscopicStability::velocity_correction` (`src/equations.rs`):
`GyroscopicStability((gyro_stability.0) * (muzzle_velocity.0 / 2800.0).powi(1 / 3))`.
The exponent `1 / 3` is `i32` division in the source, modelled by `ℤ`
division, which truncates to `0`. -/
def GyroscopicStability.velocity_correction (muzzle_velocity : Velocity)
    (gyro_stability : GyroscopicStability) : GyroscopicStability :=
  gyro_stability * (muzzle_velocity / 2800.0) ^ (1 / 3 : ℤ)

/-- Rust `GyroscopicStability::atmospheric_correction` (`src/equations.rs`):
`GyroscopicStability((gyro_stability.0) * ((air_temp.0 + 460.0) / (59.0 + 460.0)
* (29.92 / air_pressure.0)))`. -/
def GyroscopicStability.atmospheric_correction (air_temp : Temperature)
    (air_pressure : Pressure) (gyro_stability : GyroscopicStability) :
    GyroscopicStability :=
  gyro_stability * ((air_temp + 460.0) / (59.0 + 460.0) * (29.92 / air_pressure))

/-- Rust `BallisticCoefficient::calculate` (`src/equations.rs`):
`BallisticCoefficient((bullet_mass.0 / 7000.0) / (bullet_diameter.0.powi(2)
* form_factor.0))`. -/
def BallisticCoefficient.calculate (bullet_mass : BulletMass)
    (bullet_diameter : BulletDiameter) (form_factor : FormFactor) :
    BallisticCoefficient :=
  (bullet_mass / 7000.0) / (bullet_diameter ^ (2 : ℤ) * form_factor)

/-- Extended value domain for IEEE-754 doubles: a finite value (kept exact,
with no rounding or overflow, and a single zero read as IEEE `+0`), the two
infinities, and NaN.  Used where a claim is about the special values that
`f64` division by zero produces. -/
inductive FP where
  | fin : ℚ → FP
  | inf : FP
  | neginf : FP
  | nan : FP
deriving DecidableEq

/-- IEEE-754 multiplication on the extended domain: finite products are exact,
a finite factor times an infinity follows the sign rule, `0 * ±∞` is NaN, and
NaN is absorbing. -/
def FP.mul : FP → FP → FP
  | FP.nan, _ => FP.nan
  | _, FP.nan => FP.nan
  | FP.fin a, FP.fin b => FP.fin (a * b)
  | FP.fin a, FP.inf =>
      if 0 < a then FP.inf else if a < 0 then FP.neginf else FP.nan
  | FP.fin a, FP.neginf =>
      if 0 < a then FP.neginf else if a < 0 then FP.inf else FP.nan
  | FP.inf, FP.fin b =>
      if 0 < b then FP.inf else if b < 0 then FP.neginf else FP.nan
  | FP.neginf, FP.fin b =>
      if 0 < b then FP.neginf else if b < 0 then FP.inf else FP.nan
  | FP.inf, FP.inf => FP.inf
  | FP.inf, FP.neginf => FP.neginf
  | FP.neginf, FP.inf => FP.neginf
  | FP.neginf, FP.neginf => FP.inf

/-- IEEE-754 division on the extended domain: finite quotients are exact, a
nonzero finite value divided by (positive) zero is the infinity of the
numerator's sign, `0/0` is NaN, `±∞ / ±∞` is NaN, and NaN is absorbing. -/
def FP.div : FP → FP → FP
  | FP.nan, _ => FP.nan
  | _, FP.nan => FP.nan
  | FP.fin a, FP.fin b =>
      if b = 0 then
        if 0 < a then FP.inf else if a < 0 then FP.neginf else FP.nan
      else FP.fin (a / b)
  | FP.fin _, FP.inf => FP.fin 0
  | FP.fin _, FP.neginf => FP.fin 0
  | FP.inf, FP.fin b => if 0 ≤ b then FP.inf else FP.neginf
  | FP.neginf, FP.fin b => if 0 ≤ b then FP.neginf else FP.inf
  | FP.inf, FP.inf => FP.nan
  | FP.inf, FP.neginf => FP.nan
  | FP.neginf, FP.inf => FP.nan
  | FP.neginf, FP.neginf => FP.nan

/-- Rust `ApertureSightCalibration::calculate` (`src/equations.rs`):
`ApertureSightCalibration(171.89 * (sight_movement_twenty_clicks.0 /
sight_radius.0))`, modelled on the extended domain `FP` so that division by a
zero sight radius is captured with IEEE-754 semantics.  The function is total:
it never faults, every outcome is a value of `FP`. -/
def ApertureSightCalibration.calculate (sight_movement_twenty_clicks : FP)
    (sight_radius : FP) : FP :=
  FP.mul (FP.fin 171.89) (FP.div sight_movement_twenty_clicks sight_radius)

end Ballistics

namespace Ballistics

/-- Rust `powi(2)` agrees with the natural-number square. -/
lemma zpow_two_eq_sq (a : ℚ) : a ^ (2 : ℤ) = a ^ 2 := by
  rw [show ((2 : ℤ)) = ((2 : ℕ) : ℤ) from rfl, zpow_natCast]

/-- Rust `powi(3)` agrees with the natural-number cube. -/
lemma zpow_three_eq_cube (a : ℚ) : a ^ (3 : ℤ) = a ^ 3 := by
  rw [show ((3 : ℤ)) = ((3 : ℕ) : ℤ) from rfl, zpow_natCast]

/-- C2: for every muzzle velocity and stability value, `velocity_correction`
returns the stability value unchanged: the `i32` exponent `1 / 3` truncates to
`0`, so the correction factor `(v/2800)^0` is `1` regardless of `v`. -/
theorem velocity_correction_is_noop (muzzle_velocity : Velocity)
    (gyro_stability : GyroscopicStability) :
    GyroscopicStability.velocity_correction muzzle_velocity gyro_stability =
      gyro_stability := by
  unfold GyroscopicStability.velocity_correction
  norm_num

/-- C8: `FormFactor.calculate x x = 1` for every nonzero drag coefficient
`x` — the form factor of a bullet against itself is exactly one. -/
theorem form_factor_self_eq_one (x : DragCoefficient) (hx : x ≠ 0) :
    FormFactor.calculate x x = 1 := by
  unfold FormFactor.calculate
  exact div_self hx

/-- Witness for C8 at the spec's concrete input `cd = cd_standard = 0.5`. -/
theorem form_factor_self_eq_one_witness :
    (0.5 : DragCoefficient) ≠ 0 ∧ FormFactor.calculate 0.5 0.5 = 1 :=
  ⟨by norm_num, form_factor_self_eq_one 0.5 (by norm_num)⟩

/-- C9: with form factor `1.0`, the ballistic coefficient reduces to the
sectional-density form `(m/7000)/d²` for every mass and diameter. -/
theorem ballistic_coefficient_unit_form_factor (m : BulletMass)
    (d : BulletDiameter) :
    BallisticCoefficient.calculate m d 1.0 = (m / 7000) / d ^ 2 := by
  unfold BallisticCoefficient.calculate
  rw [zpow_two_eq_sq]
  norm_num

/-- C3: at standard conditions `T = 59 °F`, `P = 29.92 inHg` the atmospheric
factor `((T+460)/(59+460))*(29.92/P)` is exactly `1`, so
`atmospheric_correction` returns the stability value unchanged; consequently
the chained scenario `calculate → velocity_correction (v = 3000) →
atmospheric_correction` agrees with applying `atmospheric_correction` at
standard conditions directly to the uncorrected stability. -/
theorem atmospheric_correction_standard_conditions (s : GyroscopicStability)
    (m : BulletMass) (t : RiflingTwist) (d : BulletDiameter)
    (L : BulletLength) :
    GyroscopicStability.atmospheric_correction 59.0 29.92 s = s ∧
    GyroscopicStability.atmospheric_correction 59.0 29.92
        (GyroscopicStability.velocity_correction 3000.0
          (GyroscopicStability.calculate m t d L)) =
      GyroscopicStability.atmospheric_correction 59.0 29.92
        (GyroscopicStability.calculate m t d L) := by
  constructor
  · unfold GyroscopicStability.atmospheric_correction
    norm_num
  · unfold GyroscopicStability.velocity_correction
    norm_num

/-- C1: the source computes the velocity-correction exponent as the `i32`
quotient `1 / 3 = 0`, so at muzzle velocity `350 ft/s` and stability `1.0`
the code returns `1.0`, whereas the intended real-valued cube-root exponent
gives `(350/2800)^(1/3) = 1/2`. -/
theorem velocity_correction_exponent_truncates :
    GyroscopicStability.velocity_correction 350.0 1.0 = 1.0 ∧
    ((350.0 : ℝ) / 2800.0) ^ ((1 : ℝ) / 3) = 1 / 2 := by
  constructor
  · unfold GyroscopicStability.velocity_correction
    norm_num
  · have h : ((350.0 : ℝ) / 2800.0) = (1 / 2 : ℝ) ^ (3 : ℕ) := by norm_num
    rw [h, ← Real.rpow_natCast ((1 : ℝ) / 2) 3,
      ← Real.rpow_mul (by norm_num : (0 : ℝ) ≤ 1 / 2)]
    have h3 : ((3 : ℕ) : ℝ) * ((1 : ℝ) / 3) = 1 := by norm_num
    rw [h3, Real.rpow_one]

/-- Bounds on the square root appearing in `SpeedOfSound.calculate 59`. -/
lemma sqrt_518_67_bounds :
    22.774 < Real.sqrt 518.67 ∧ Real.sqrt 518.67 < 22.775 := by
  have hs : Real.sqrt 518.67 ^ 2 = 518.67 := Real.sq_sqrt (by norm_num)
  have hnn : (0 : ℝ) ≤ Real.sqrt 518.67 := Real.sqrt_nonneg _
  constructor
  · nlinarith [hs, hnn]
  · nlinarith [hs, hnn]

/-- Closed form of the speed of sound at `59 °F`. -/
lemma speed_of_sound_59_eq :
    SpeedOfSound.calculate 59.0 = 49.0223 * Real.sqrt 518.67 := by
  unfold SpeedOfSound.calculate
  norm_num

/-- C4 counterexample: `SpeedOfSound.calculate 59` is
`49.0223 * sqrt 518.67 ≈ 1116.45`, which misses the sea-level constant
`1116.28` by far more than the stated `1e-6` tolerance. -/
theorem speed_of_sound_59_not_sea_level_constant :
    1e-6 < |SpeedOfSound.calculate 59.0 - SPEED_OF_SOUND_SEA_LEVEL| := by
  have h := sqrt_518_67_bounds
  rw [speed_of_sound_59_eq]
  unfold SPEED_OF_SOUND_SEA_LEVEL
  have hgt : (1e-6 : ℝ) < 49.0223 * Real.sqrt 518.67 - 1116.28 := by
    nlinarith [h.1]
  exact hgt.trans_le (le_abs_self _)

/-- C4 amended: `SpeedOfSound.calculate 59` lies within `0.05` of `1116.45`
and within `0.21` of the sea-level constant `1116.28`, but not within
`1e-6` of it. -/
theorem speed_of_sound_59_value_bounds :
    |SpeedOfSound.calculate 59.0 - 1116.45| < 0.05 ∧
    |SpeedOfSound.calculate 59.0 - SPEED_OF_SOUND_SEA_LEVEL| < 0.21 := by
  have h := sqrt_518_67_bounds
  rw [speed_of_sound_59_eq]
  unfold SPEED_OF_SOUND_SEA_LEVEL
  constructor
  · rw [abs_lt]
    constructor <;> nlinarith [h.1, h.2]
  · rw [abs_lt]
    constructor <;> nlinarith [h.1, h.2]

/-- C5 counterexample: `KineticEnergy.calculate 150 2800` equals
`150 * 2800² / 450800 = 2940000/1127 ≈ 2608.70`, which is not within `1e-6`
of the spec's stated value `2609.73`. -/
theorem kinetic_energy_150_2800_not_2609_73 :
    1e-6 < |KineticEnergy.calculate 150.0 2800.0 - 2609.73| := by
  unfold KineticEnergy.calculate
  rw [zpow_two_eq_sq]
  rw [abs_of_neg (by norm_num)]
  norm_num

/-- C5 amended: `KineticEnergy.calculate 150 2800` is exactly
`150 * 2800² / 450800` and lies within `1e-2` of `2608.70` ft-lb. -/
theorem kinetic_energy_150_2800_value :
    KineticEnergy.calculate 150.0 2800.0 = 150.0 * 2800.0 ^ 2 / 450800.0 ∧
    |KineticEnergy.calculate 150.0 2800.0 - 2608.70| < 1e-2 := by
  unfold KineticEnergy.calculate
  rw [zpow_two_eq_sq]
  constructor
  · norm_num
  · rw [abs_of_neg (by norm_num)]
    norm_num

/-- C10: `GyroscopicStability.calculate` is invariant under negating the
rifling twist, because the twist enters Miller's formula only squared. -/
theorem gyroscopic_stability_twist_sign_invariant (m : BulletMass)
    (t : RiflingTwist) (d : BulletDiameter) (L : BulletLength) :
    GyroscopicStability.calculate m (-t) d L =
      GyroscopicStability.calculate m t d L := by
  simp only [GyroscopicStability.calculate, zpow_two_eq_sq, zpow_three_eq_cube,
    neg_sq]

/-- C7 counterexample: with numerator `0` and radius `0` the aperture-sight
formula computes `171.89 * (0/0) = NaN`, which is not an infinity of either
sign — the claim fails for the sight movement `c = 0`. -/
theorem aperture_zero_over_zero_is_nan :
    ApertureSightCalibration.calculate (FP.fin 0) (FP.fin 0) = FP.nan ∧
    FP.nan ≠ FP.inf ∧ FP.nan ≠ FP.neginf := by
  refine ⟨?_, by decide, by decide⟩
  decide

/-- C7 amended: for every nonzero sight movement `c`, dividing by a zero
sight radius yields the infinity whose sign matches the sign of `c`, and the
computation is total (no fault: the result is a defined `FP` value). -/
theorem aperture_zero_radius_signed_infinity (c : ℚ) (hc : c ≠ 0) :
    (0 < c →
      ApertureSightCalibration.calculate (FP.fin c) (FP.fin 0) = FP.inf) ∧
    (c < 0 →
      ApertureSightCalibration.calculate (FP.fin c) (FP.fin 0) = FP.neginf) := by
  unfold ApertureSightCalibration.calculate
  constructor
  · intro h
    have hdiv : FP.div (FP.fin c) (FP.fin 0) = FP.inf := by
      simp [FP.div, h]
    rw [hdiv]
    norm_num [FP.mul]
  · intro h
    have hdiv : FP.div (FP.fin c) (FP.fin 0) = FP.neginf := by
      simp [FP.div, h, h.not_lt]
    rw [hdiv]
    norm_num [FP.mul]

/-- Witness for the amended C7 at the concrete sight movement `c = 1`. -/
theorem aperture_zero_radius_signed_infinity_witness :
    (1 : ℚ) ≠ 0 ∧
    ((0 < (1 : ℚ) →
      ApertureSightCalibration.calculate (FP.fin 1) (FP.fin 0) = FP.inf) ∧
    ((1 : ℚ) < 0 →
      ApertureSightCalibration.calculate (FP.fin 1) (FP.fin 0) = FP.neginf)) :=
  ⟨by decide, aperture_zero_radius_signed_infinity 1 (by decide)⟩

end Ballistics
